import Mathlib

/-!
# Cpp_Templates: the illustrative algorithms and type predicates

A shallow embedding of the few executable fragments of the tutorial sources:

* `Tutorial_2.cc`: `sum_elem` over a linked list and the two `accumulate`
  function templates;
* `IsPointerConcepts.cc` and `TypeTraitsToDetectPointers.cc`: the pointer
  predicates `IsPointer`, `is_any_pointer_v` and the `check` overload sets;
* `TemplateMetaprogramming.cc`: `conditional`, `Is_big`, `Obj_holder`, `Fac`
  and `enable_if`.

Run time code is embedded as fuel-indexed loops over an explicit state; a run
that exhausts every amount of fuel is a run that never returns.  Compile time
type functions are embedded as functions over a small universe of C++ types.
-/

namespace Tutorial_2

/-! ## The `accumulate` templates (Tutorial_2.cc, lines 118-139) -/

/-- Local variables of one `accumulate` call: the cursor `first` (an address),
the accumulator `s`, and a ghost counter of how often the combining operation
has been applied so far. -/
structure AccState (Val : Type) where
  first : Nat
  s : Val
  applied : Nat
deriving DecidableEq, Repr

/-- The `while` statement shared by both `accumulate` templates, exactly as
written: the source has no braces, so the controlled statement is the single
assignment `s = op(s, *first);` and nothing else.  `mem` is the memory the
cursors point into (`*first` is `mem first`), `fuel` bounds the number of
evaluations of the loop condition; `none` means the fuel ran out. -/
def accumulate_loop {Val E : Type} (op : Val → E → Val) (mem : Nat → E) (last : Nat) :
    Nat → AccState Val → Option (AccState Val)
  | 0, _ => none
  | fuel + 1, st =>
    if st.first != last then
      accumulate_loop op mem last fuel
        { st with s := op st.s (mem st.first), applied := st.applied + 1 }
    else
      some st

/-- The statement `++first;` that follows the loop. -/
def advance {Val : Type} (st : AccState Val) : AccState Val :=
  { st with first := st.first + 1 }

/-- Four-argument `accumulate(first, last, s, op)` (lines 131-139): the loop,
then `++first;`, then `return s;`. -/
def accumulate_op {Val E : Type} (fuel : Nat) (mem : Nat → E) (first last : Nat) (s : Val)
    (op : Val → E → Val) : Option Val :=
  match accumulate_loop op mem last fuel ⟨first, s, 0⟩ with
  | none => none
  | some st => some (advance st).s

/-- Three-argument `accumulate(first, last, s)` (lines 118-125): the same
statements with `s = s + *first;` as the controlled statement. -/
def accumulate {Val E : Type} [HAdd Val E Val] (fuel : Nat) (mem : Nat → E)
    (first last : Nat) (s : Val) : Option Val :=
  match accumulate_loop (fun (v : Val) (x : E) => v + x) mem last fuel ⟨first, s, 0⟩ with
  | none => none
  | some st => some (advance st).s

/-- The array `a[] = {1, 2, 3, 4}` of lines 127 and 141, placed at address 0. -/
def a : Nat → Int := fun i => [1, 2, 3, 4].getD i 0

/-- The elements of the range `[first, last)` in order. -/
def rangeElems {E : Type} (mem : Nat → E) (first last : Nat) : List E :=
  (List.range (last - first)).map (fun i => mem (first + i))

/-! ## `sum_elem` over a linked list (Tutorial_2.cc, lines 77-91) -/

/-- A `Node`: the address of the next node (0 is `nullptr`) and the payload. -/
structure Node where
  next : Nat
  data : Int
deriving DecidableEq, Repr

/-- How a call ends: it returns a value, it dereferences an address that holds
no node, or it is still running when the fuel is gone. -/
inductive Outcome (α : Type) where
  | returned (v : α)
  | fault
  | running
deriving DecidableEq, Repr

/-- The `while` statement of `sum_elem` as written: without braces the
controlled statement is only `s = first->data;`. -/
def sum_elem_loop (heap : Nat → Option Node) (last : Nat) :
    Nat → Nat → Int → Outcome (Nat × Int)
  | 0, _, _ => Outcome.running
  | fuel + 1, first, s =>
    if first != last then
      match heap first with
      | none => Outcome.fault
      | some n => sum_elem_loop heap last fuel first n.data
    else
      Outcome.returned (first, s)

/-- Function `sum_elem(first, last)`: `int s = 0;`, the loop, then
`first = first->next;`, then `return s;`. -/
def sum_elem (fuel : Nat) (heap : Nat → Option Node) (first last : Nat) : Outcome Int :=
  match sum_elem_loop heap last fuel first 0 with
  | Outcome.returned (p, s) =>
    match heap p with
    | none => Outcome.fault
    | some _ => Outcome.returned s
  | Outcome.fault => Outcome.fault
  | Outcome.running => Outcome.running

/-- A chain of two nodes: address 1 holds data 1 and points to address 2,
which holds data 2 and points to `nullptr`. -/
def chain12 : Nat → Option Node := fun p =>
  if p = 1 then some ⟨2, 1⟩ else if p = 2 then some ⟨0, 2⟩ else none

/-- The data fields of the nodes from `first` up to `last`, following `next`
for at most `n` nodes. -/
def chainData (heap : Nat → Option Node) (last : Nat) : Nat → Nat → List Int
  | 0, _ => []
  | n + 1, first =>
    if first = last then []
    else match heap first with
      | none => []
      | some nd => nd.data :: chainData heap last n nd.next

end Tutorial_2

namespace Cpp

/-! ## A universe of C++ types and the library traits the sources use -/

/-- Member access of a class member. -/
inductive Access where
  | public_
  | protected_
  | private_
deriving DecidableEq, Repr

/-- A type name that is a member of a class: its name, its access as a member
of that class, and whether the class declares it itself or inherits it from a
base class. -/
structure MemberType where
  name : String
  access : Access
  inherited : Bool
deriving DecidableEq, Repr

/-- A public member type that the class declares itself. -/
def public_type (name : String) : MemberType := ⟨name, Access.public_, false⟩

/-- The C++ types the predicates are evaluated on.  A class type carries its
name and its member types, declared and inherited; `inst` is a class template
specialisation with one type argument. -/
inductive CType where
  | void
  | int
  | double
  | nullptr_t
  | ptr (pointee : CType)
  | lref (referred : CType)
  | const_ (T : CType)
  | volatile_ (T : CType)
  | array (elem : CType) (n : Nat)
  | func (ret : CType) (param : CType)
  | memptr (cls : CType) (member : CType)
  | cls (name : String) (memberTypes : List MemberType)
  | inst (template : String) (arg : CType) (memberTypes : List MemberType)
deriving DecidableEq, Repr

/-- Library trait `std::remove_cv`: strips the top-level cv-qualifiers. -/
def remove_cv : CType → CType
  | CType.const_ T => remove_cv T
  | CType.volatile_ T => remove_cv T
  | T => T

/-- Library trait `std::is_pointer<T>::value` (also `std::is_pointer_v<T>`) as
the C++ standard defines it: true exactly when `T` without its top-level
cv-qualifiers is a pointer to object or to function; false for references,
arrays, `std::nullptr_t`, pointers to members and class types. -/
def std_is_pointer (T : CType) : Bool :=
  match remove_cv T with
  | CType.ptr _ => true
  | _ => false

/-- Class member lookup of a type name: a declaration in the class itself
hides the members of that name in its base classes. -/
def lookup_member_type (name : String) (ms : List MemberType) : Option MemberType :=
  match ms.find? (fun m => m.name == name && !m.inherited) with
  | some m => some m
  | none => ms.find? (fun m => m.name == name && m.inherited)

/-- Whether `C::name` names a type from outside the class: lookup finds a
member type and the access check passes, which outside the class and its
friends needs a public member. -/
def accessible_member_type (name : String) (ms : List MemberType) : Bool :=
  match lookup_member_type name ms with
  | some m => decide (m.access = Access.public_)
  | none => false

/-- Validity of the type requirement `typename T::name` of a requires-expression
at namespace scope: `T` must be a (possibly cv-qualified) class type in which
lookup finds a member type of that name, declared or inherited, that is
accessible.  For every other type, references included, the nested name is
invalid. -/
def has_member_type (name : String) : CType → Bool
  | CType.cls _ ms => accessible_member_type name ms
  | CType.inst _ _ ms => accessible_member_type name ms
  | CType.const_ T => has_member_type name T
  | CType.volatile_ T => has_member_type name T
  | _ => false

/-- Specification side: `T` is a raw pointer type, a pointer possibly under
top-level cv-qualifiers. -/
inductive IsRawPointerType : CType → Prop where
  | ptr (U : CType) : IsRawPointerType (CType.ptr U)
  | const_ {T : CType} : IsRawPointerType T → IsRawPointerType (CType.const_ T)
  | volatile_ {T : CType} : IsRawPointerType T → IsRawPointerType (CType.volatile_ T)

/-- Specification side: `T` is a class type, possibly cv-qualified, that
declares a member type called `name` itself, with whatever access. -/
inductive DeclaresMemberType (name : String) : CType → Prop where
  | cls (n : String) (ms : List MemberType) :
      (∃ m ∈ ms, m.name = name ∧ m.inherited = false) →
      DeclaresMemberType name (CType.cls n ms)
  | inst (t : String) (arg : CType) (ms : List MemberType) :
      (∃ m ∈ ms, m.name = name ∧ m.inherited = false) →
      DeclaresMemberType name (CType.inst t arg ms)
  | const_ {T : CType} : DeclaresMemberType name T → DeclaresMemberType name (CType.const_ T)
  | volatile_ {T : CType} :
      DeclaresMemberType name T → DeclaresMemberType name (CType.volatile_ T)

/-- Library trait `std::enable_if<B, T>::type`: the member `type` is `T` when
`B` is true and does not exist when `B` is false. -/
def std_enable_if (B : Bool) (T : CType) : Option CType :=
  if B then some T else none

/-- The handle type `std::unique_ptr<int>` with the public member types the
library gives it. -/
def unique_ptr_int : CType :=
  CType.inst "std::unique_ptr" CType.int
    [public_type "pointer", public_type "element_type", public_type "deleter_type"]

/-- What a use of an alias template names after substitution: a type; no
type, because a nested type it refers to does not exist (a substitution
failure, which drops the declaration silently); or nothing at all, because
the argument list does not fit the parameters of the template (an error in
the declaration that contains it). -/
inductive TypeName where
  | type (T : CType)
  | no_type
  | ill_formed
deriving DecidableEq, Repr

/-- Whether a function template whose return type is the given name is
declared for the substituted arguments. -/
def TypeName.declares : TypeName → Bool
  | TypeName.type _ => true
  | TypeName.no_type => false
  | TypeName.ill_formed => false

/-- One function template of an overload set: the condition under which its
declaration survives substitution of `T`, and the text its body prints. -/
structure Overload where
  enabled : CType → Bool
  prints : String

/-- Result of a call: the text printed by the one viable overload, or the
reason the call is ill-formed. -/
inductive Resolution where
  | selected (prints : String)
  | no_match
  | ambiguous
deriving DecidableEq, Repr

/-- The overloads of the set that are viable for template argument `T`. -/
def viable (ovs : List Overload) (T : CType) : List Overload :=
  ovs.filter (fun o => o.enabled T)

/-- Overload resolution among templates with identical signatures: the call
is well-formed exactly when one candidate is viable. -/
def resolve (ovs : List Overload) (T : CType) : Resolution :=
  match viable ovs T with
  | [] => Resolution.no_match
  | [o] => Resolution.selected o.prints
  | _ => Resolution.ambiguous

/-- Object sizes in chars on the common 64-bit platforms: `int` 4, `double` 8,
pointers, `std::nullptr_t` and pointers to data members 8, pointers to member
functions 16, an array its length times its element; a cv-qualified type has
the size of the unqualified one and a reference the size of the referred
type.  `void` and function types have no size, and a class type of this
universe has no data members to lay out; the table gives those the size of
one pointer as a stand-in. -/
def sizeof_lp64 : CType → Nat
  | CType.int => 4
  | CType.double => 8
  | CType.const_ T => sizeof_lp64 T
  | CType.volatile_ T => sizeof_lp64 T
  | CType.lref T => sizeof_lp64 T
  | CType.array T n => n * sizeof_lp64 T
  | CType.memptr _ (CType.func _ _) => 16
  | _ => 8

end Cpp

namespace TemplateMetaprogramming

open Cpp

/-! ## TemplateMetaprogramming.cc -/

/-- Type function `conditional<C, T, F>::type` (lines 263-272): the primary
template names `T`, the partial specialisation for `false` names `F`. -/
def conditional (C : Bool) (T F : CType) : CType :=
  match C with
  | false => F
  | true => T

/-- The alias `Conditional<B, T, F>` (lines 275-276). -/
def Conditional (B : Bool) (T F : CType) : CType := conditional B T F

/-- The holder `Scoped<T>` (lines 156-164): the object lives inside the holder
(on the stack); the class declares no member types. -/
def Scoped (T : CType) : CType := CType.inst "Scoped" T []

/-- The holder `On_heap<T>` (lines 143-154): the object lives on the free
store; the class declares no member types. -/
def On_heap (T : CType) : CType := CType.inst "On_heap" T []

/-- Predicate `Is_big<T>()` (lines 234-238): `return 100<sizeof(T);`.  The
platform's `sizeof` is a parameter. -/
def Is_big (sizeof : CType → Nat) (T : CType) : Bool := decide (100 < sizeof T)

/-- The alias `Obj_holder<T>` of line 241:
`Conditional<(Is_big<T>()), Scoped<T>, On_heap<T>>`. -/
def Obj_holder (sizeof : CType → Nat) (T : CType) : CType :=
  Conditional (Is_big sizeof T) (Scoped T) (On_heap T)

/-- Member `std::enable_if<B, T>::type` (lines 386-392): the primary template
declares `typedef T type;`, the specialisation for `false` declares nothing. -/
def enable_if (B : Bool) (T : CType) : Option CType :=
  match B with
  | false => none
  | true => some T

/-- The alias `Enable_if<B, T>` (lines 394-395): `typename enable_if<B,T>::type`,
which names no type when the member is absent. -/
def Enable_if (B : Bool) (T : CType) : Option CType := enable_if B T

/-- Whether a value is representable in `int`, taken as 32 bits wide. -/
def int_fits (v : Int) : Bool := decide (-2147483648 ≤ v ∧ v ≤ 2147483647)

/-- Constant `Fac<N>::value` (lines 307-316), a `static const int`: `Fac<1>`
is the explicit specialisation with value 1, every other `Fac<N>`
instantiates `Fac<N-1>` and multiplies its value by `N` in `int`.  A product
that leaves the range of `int` is not a constant expression, and the member
then has no value.  The first argument bounds the depth of template
instantiation; `none` means no value: the bound was reached or a product
overflowed. -/
def Fac : Nat → Int → Option Int
  | 0, _ => none
  | depth + 1, N =>
    if N = 1 then some 1
    else match Fac depth (N - 1) with
      | none => none
      | some v => if int_fits (N * v) then some (N * v) else none

end TemplateMetaprogramming

namespace IsPointerConcepts

open Cpp

/-! ## IsPointerConcepts.cc -/

/-- The concept `IsPointer<T>` (lines 14-18): `std::is_pointer_v<T>` or the
requires-expression whose one requirement is `typename T::element_type`. -/
def IsPointer (T : CType) : Bool :=
  std_is_pointer T || has_member_type "element_type" T

/-- Overload `template<IsPointer T> void check(const T&)` (lines 22-26). -/
def check_pointer : Overload :=
  ⟨fun T => IsPointer T, "Iam a pointer"⟩

/-- Overload `void check(const T&) requires(!IsPointer<T>)` (lines 29-33). -/
def check_not_pointer : Overload :=
  ⟨fun T => !IsPointer T, "Iam not a pointer"⟩

/-- A call `check(t)` with `T` deduced from the argument. -/
def check (T : CType) : Resolution := resolve [check_pointer, check_not_pointer] T

end IsPointerConcepts

namespace TypeTraitsToDetectPointers

open Cpp

/-! ## TypeTraitsToDetectPointers.cc -/

/-- Predicate `IsPointer<T>()` (lines 9-13): `return std::is_pointer<T>::value;`. -/
def IsPointer (T : CType) : Bool := std_is_pointer T

/-- The alias `Enable_if<B, T>` (lines 5-6): `typename std::enable_if<B,T>::type`,
which names no type when the member is absent. -/
def Enable_if (B : Bool) (T : CType) : Option CType := std_enable_if B T

/-- A use `Enable_if<B>` or `Enable_if<B, T>` of the alias of lines 5-6.  Both
template parameters of the alias are mandatory (neither has a default
argument), so a use with the second argument left out is ill-formed; a use
with both arguments names `std::enable_if<B,T>::type` when that member exists. -/
def Enable_if_args (B : Bool) (T : Option CType) : TypeName :=
  match T with
  | none => TypeName.ill_formed
  | some U =>
    match Enable_if B U with
    | some R => TypeName.type R
    | none => TypeName.no_type

/-- Overload `Enable_if<IsPointer<T>()> check(const T&)` (lines 15-19): the
return type is a use of `Enable_if` with one argument. -/
def check_pointer : Overload :=
  ⟨fun T => (Enable_if_args (IsPointer T) none).declares, "I am a pointer"⟩

/-- Overload `Enable_if<!IsPointer<T>()> check(const T&)` (lines 21-25): the
return type is a use of `Enable_if` with one argument. -/
def check_not_pointer : Overload :=
  ⟨fun T => (Enable_if_args (!IsPointer T) none).declares, "I am not a  pointer"⟩

/-- A call `check(t)` with `T` deduced from the argument. -/
def check (T : CType) : Resolution := resolve [check_pointer, check_not_pointer] T

/-- The class template `is_any_pointer` (lines 27-32): the primary template is
`std::false_type`, the partial specialisation for `T*` is `std::true_type`. -/
def is_any_pointer (T : CType) : Bool :=
  match T with
  | CType.ptr _ => true
  | _ => false

/-- The variable template `is_any_pointer_v<T>` (lines 34-35), defined as
`std::is_pointer<T>::value`. -/
def is_any_pointer_v (T : CType) : Bool := std_is_pointer T

end TypeTraitsToDetectPointers

namespace Cpp

/-! ## Library types and traits used by the struct `Obj_holder` -/

/-- Library trait `std::conditional<B, T, F>::type`: `T` when `B` is true and
`F` when it is false. -/
def std_conditional (B : Bool) (T F : CType) : CType :=
  if B then T else F

/-- The class type `std::string`. -/
def std_string : CType :=
  CType.cls "std::string"
    [public_type "traits_type", public_type "value_type", public_type "allocator_type",
      public_type "size_type"]

/-- The class type `std::array<double, 200>`. -/
def std_array_double_200 : CType :=
  CType.cls "std::array<double, 200>"
    [public_type "value_type", public_type "size_type", public_type "iterator"]

/-- Object sizes with the two library classes the file uses: `std::string` has
32 chars (its size in libstdc++ on the 64-bit platforms), and
`std::array<double, 200>` holds 200 doubles, 1600 chars; every other type has
the size `sizeof_lp64` gives it. -/
def sizeof_lp64_lib (T : CType) : Nat :=
  if T = std_string then 32
  else if T = std_array_double_200 then 1600
  else sizeof_lp64 T

end Cpp

namespace TemplateMetaprogramming

open Cpp

/-! ## The struct `Obj_holder`, `Holder`, and the use of `Enable_if` -/

/-- Constant `on_stack_max` (line 117): `sizeof(std::string)`.  The value is
positive, so its declared type `int` does not change the comparison with a
`sizeof`. -/
def on_stack_max (sizeof : CType → Nat) : Nat := sizeof std_string

/-- The name `On_Heap<T>` that line 124 uses for the heap holder.  The one
heap holder the file declares is `On_heap` (lines 143-154); the name is read
as that template. -/
def On_Heap (T : CType) : CType := On_heap T

/-- Member `Obj_holder<T>::type` of the struct of lines 119-126:
`std::conditional<(sizeof(T) <= on_stack_max), Scoped<T>, On_Heap<T>>::type`. -/
def Obj_holder.type (sizeof : CType → Nat) (T : CType) : CType :=
  std_conditional (decide (sizeof T ≤ on_stack_max sizeof)) (Scoped T) (On_Heap T)

/-- The alias `Holder<T>` (lines 176-177): `typename Obj_holder<T>::type`. -/
def Holder (sizeof : CType → Nat) (T : CType) : CType := Obj_holder.type sizeof T

/-- A template argument list `<B>` or `<B, T>` completed with the default
argument `typename T=void` of lines 386 and 394. -/
def default_void (T : Option CType) : CType :=
  match T with
  | some U => U
  | none => CType.void

/-- The alias `Enable_if` (lines 394-395) applied to an argument list whose
second argument may be omitted. -/
def Enable_if_args (B : Bool) (T : Option CType) : Option CType :=
  Enable_if B (default_void T)

end TemplateMetaprogramming

namespace Tutorial_2

/-! ## Properties of the loops -/

/-- A loop whose cursor differs from `last` never exits: the controlled
statement does not change the cursor. -/
theorem accumulate_loop_stuck {Val E : Type} (op : Val → E → Val) (mem : Nat → E)
    (last : Nat) (fuel : Nat) :
    ∀ st : AccState Val, st.first ≠ last → accumulate_loop op mem last fuel st = none := by
  induction fuel with
  | zero => intro st _; rfl
  | succ k ih =>
    intro st h
    have hc : (st.first != last) = true := by simpa using h
    rw [accumulate_loop, if_pos hc]
    exact ih _ h

/-- A loop entered with the cursor at `last` exits at once with the state
untouched. -/
theorem accumulate_loop_exit {Val E : Type} (op : Val → E → Val) (mem : Nat → E)
    (last : Nat) (fuel : Nat) (s : Val) (k : Nat) :
    accumulate_loop op mem last (fuel + 1) ⟨last, s, k⟩ = some ⟨last, s, k⟩ := by
  simp [accumulate_loop]

/-- The loop of `sum_elem` never exits when `first` is a live node other than
`last`. -/
theorem sum_elem_loop_stuck (heap : Nat → Option Node) (first last : Nat) (nd : Node)
    (hne : first ≠ last) (hlive : heap first = some nd) (fuel : Nat) :
    ∀ s : Int, sum_elem_loop heap last fuel first s = Outcome.running := by
  induction fuel with
  | zero => intro s; rfl
  | succ k ih =>
    intro s
    have hc : (first != last) = true := by simpa using hne
    rw [sum_elem_loop, if_pos hc, hlive]
    exact ih _

/-- C1: at the input of the source, the array {1, 2, 3, 4} with initial value
0 and multiplication as the operation, the four-argument accumulate never
returns, whatever the fuel, while the left fold the contract asks for is 0;
with addition the fold would be 10 and the call does not return either. -/
theorem accumulate_op_never_returns_on_a :
    (∀ fuel : Nat, accumulate_op fuel a 0 4 (0 : Int) (fun v x => v * x) = none) ∧
    (∀ fuel : Nat, accumulate_op fuel a 0 4 (0 : Int) (fun v x => v + x) = none) ∧
    rangeElems a 0 4 = [1, 2, 3, 4] ∧
    List.foldl (fun v x => v * x) (0 : Int) (rangeElems a 0 4) = 0 ∧
    List.foldl (fun v x => v + x) (0 : Int) (rangeElems a 0 4) = 10 := by
  refine ⟨?_, ?_, by decide, by decide, by decide⟩
  · intro fuel
    have h := accumulate_loop_stuck (fun (v x : Int) => v * x) a 4 fuel ⟨0, 0, 0⟩ (by decide)
    simp [accumulate_op, h]
  · intro fuel
    have h := accumulate_loop_stuck (fun (v x : Int) => v + x) a 4 fuel ⟨0, 0, 0⟩ (by decide)
    simp [accumulate_op, h]

/-- C2: when first equals last, both accumulate templates return the initial
value s unchanged for every fuel of at least one, and the loop exits with the
application counter still at zero: the operation is never applied. -/
theorem accumulate_empty_range {Val E : Type} [HAdd Val E Val] (mem : Nat → E)
    (first last : Nat) (s : Val) (op : Val → E → Val) (fuel : Nat) (h : first = last) :
    accumulate (fuel + 1) mem first last s = some s ∧
    accumulate_op (fuel + 1) mem first last s op = some s ∧
    accumulate_loop op mem last (fuel + 1) ⟨first, s, 0⟩ = some ⟨first, s, 0⟩ ∧
    accumulate_loop (fun (v : Val) (x : E) => v + x) mem last (fuel + 1) ⟨first, s, 0⟩
      = some ⟨first, s, 0⟩ := by
  subst h
  simp [accumulate, accumulate_op, accumulate_loop_exit, advance]

/-- Witness for C2 at the empty range starting at the end of the array a. -/
theorem accumulate_empty_range_witness :
    accumulate 1 a 4 4 (7 : Int) = some 7 ∧
    accumulate_op 1 a 4 4 (7 : Int) (fun v x => v * x) = some 7 ∧
    accumulate_loop (fun (v x : Int) => v * x) a 4 1 ⟨4, 7, 0⟩ = some ⟨4, 7, 0⟩ ∧
    accumulate_loop (fun (v x : Int) => v + x) a 4 1 ⟨4, 7, 0⟩ = some ⟨4, 7, 0⟩ :=
  accumulate_empty_range a 4 4 7 (fun v x => v * x) 0 rfl

/-- C3: on a range of n = last - first elements with n at least one, the loop
of either accumulate template does not terminate: no amount of fuel makes the
loop exit or the call return, so the cursor never reaches last. -/
theorem accumulate_nonempty_never_terminates {Val E : Type} [HAdd Val E Val]
    (mem : Nat → E) (first last : Nat) (s : Val) (op : Val → E → Val) (fuel : Nat)
    (h : first < last) :
    accumulate_loop op mem last fuel ⟨first, s, 0⟩ = none ∧
    accumulate_op fuel mem first last s op = none ∧
    accumulate fuel mem first last s = none := by
  have hne : first ≠ last := Nat.ne_of_lt h
  have h1 := accumulate_loop_stuck op mem last fuel ⟨first, s, 0⟩ hne
  have h2 := accumulate_loop_stuck (fun (v : Val) (x : E) => v + x) mem last fuel
    ⟨first, s, 0⟩ hne
  simp [accumulate, accumulate_op, h1, h2]

/-- Witness for C3: the four element array a with one thousand units of fuel. -/
theorem accumulate_nonempty_never_terminates_witness :
    0 < 4 ∧
    accumulate_loop (fun (v x : Int) => v * x) a 4 1000 ⟨0, 0, 0⟩ = none ∧
    accumulate_op 1000 a 0 4 (0 : Int) (fun v x => v * x) = none ∧
    accumulate 1000 a 0 4 (0 : Int) = none :=
  ⟨by decide, accumulate_nonempty_never_terminates a 0 4 0 (fun v x => v * x) 1000 (by decide)⟩

/-- C9: on the chain of two nodes with data 1 and 2 ending in nullptr,
sum_elem never returns, whatever the fuel, while the data fields of the chain
sum to 3.  With first equal to last the call returns 0 when first is a live
node, and dereferences nullptr in the statement after the loop when both are
nullptr. -/
theorem sum_elem_never_returns_on_chain12 :
    (∀ fuel : Nat, sum_elem fuel chain12 1 0 = Outcome.running) ∧
    chainData chain12 0 2 1 = [1, 2] ∧
    (chainData chain12 0 2 1).sum = 3 ∧
    (∀ fuel : Nat, sum_elem (fuel + 1) chain12 2 2 = Outcome.returned 0) ∧
    (∀ fuel : Nat, sum_elem (fuel + 1) chain12 0 0 = Outcome.fault) := by
  refine ⟨?_, by decide, by decide, ?_, ?_⟩
  · intro fuel
    have h := sum_elem_loop_stuck chain12 1 0 ⟨2, 1⟩ (by decide) (by decide) fuel 0
    simp [sum_elem, h]
  · intro fuel
    simp [sum_elem, sum_elem_loop, chain12]
  · intro fuel
    simp [sum_elem, sum_elem_loop, chain12]

end Tutorial_2

namespace Cpp

/-! ## The library traits against their specification -/

theorem std_is_pointer_const (T : CType) :
    std_is_pointer (CType.const_ T) = std_is_pointer T := by
  simp [std_is_pointer, remove_cv]

theorem std_is_pointer_volatile (T : CType) :
    std_is_pointer (CType.volatile_ T) = std_is_pointer T := by
  simp [std_is_pointer, remove_cv]

/-- The trait `std::is_pointer` holds exactly on the raw pointer types. -/
theorem std_is_pointer_iff (T : CType) :
    std_is_pointer T = true ↔ IsRawPointerType T := by
  induction T with
  | ptr U _ =>
    constructor
    · intro _; exact IsRawPointerType.ptr U
    · intro _; simp [std_is_pointer, remove_cv]
  | const_ T ih =>
    rw [std_is_pointer_const]
    constructor
    · intro h; exact IsRawPointerType.const_ (ih.mp h)
    · intro h; cases h with
      | const_ h1 => exact ih.mpr h1
  | volatile_ T ih =>
    rw [std_is_pointer_volatile]
    constructor
    · intro h; exact IsRawPointerType.volatile_ (ih.mp h)
    · intro h; cases h with
      | volatile_ h1 => exact ih.mpr h1
  | _ =>
    constructor
    · intro h; simp [std_is_pointer, remove_cv] at h
    · intro h; cases h

/-- Two overloads with complementary conditions: the one whose condition
holds is selected. -/
theorem resolve_complementary (b : CType → Bool) (yes no : String) (T : CType) :
    resolve [⟨b, yes⟩, ⟨fun U => !b U, no⟩] T
      = Resolution.selected (if b T then yes else no) := by
  cases h : b T <;> simp [resolve, viable, List.filter, h]

theorem viable_complementary (b : CType → Bool) (yes no : String) (T : CType) :
    (viable [⟨b, yes⟩, ⟨fun U => !b U, no⟩] T).length = 1 := by
  cases h : b T <;> simp [viable, List.filter, h]

end Cpp

namespace IsPointerConcepts

open Cpp

end IsPointerConcepts

namespace TypeTraitsToDetectPointers

open Cpp

/-- C5, as stated, fails: std::unique_ptr<int> publishes element_type and is
not a raw pointer, yet the predicate IsPointer<T>() of the type-traits file
returns false for it. -/
theorem IsPointer_traits_rejects_handle :
    DeclaresMemberType "element_type" unique_ptr_int ∧
    ¬ IsRawPointerType unique_ptr_int ∧
    IsPointer unique_ptr_int = false := by
  refine ⟨?_, ?_, by decide⟩
  · exact DeclaresMemberType.inst _ _ _ ⟨public_type "element_type", by simp, rfl, rfl⟩
  · intro h; cases h

/-- C5 amended: the predicate IsPointer<T>() of the type-traits file returns
true exactly when T is a raw pointer type and false for every other type, a
handle type that publishes element_type included. -/
theorem IsPointer_traits_iff (T : CType) :
    (IsPointer T = true ↔ IsRawPointerType T) ∧
    (IsPointer T = false ↔ ¬ IsRawPointerType T) := by
  have h : IsPointer T = true ↔ IsRawPointerType T := std_is_pointer_iff T
  refine ⟨h, ?_⟩
  rw [← h]
  cases IsPointer T <;> simp

/-- C7: the variable template is_any_pointer_v<T> is true exactly when T is a
raw pointer type; it is false for int and true for int*. -/
theorem is_any_pointer_v_iff (T : CType) :
    (is_any_pointer_v T = true ↔ IsRawPointerType T) ∧
    is_any_pointer_v CType.int = false ∧
    is_any_pointer_v (CType.ptr CType.int) = true :=
  ⟨std_is_pointer_iff T, by decide, by decide⟩

end TypeTraitsToDetectPointers

namespace Cpp

/-- With the alias of TemplateMetaprogramming.cc, whose second parameter has
the default void, a declaration with return type Enable_if<B> survives exactly
when B is true. -/
theorem Enable_if_default_isSome (B : Bool) :
    (TemplateMetaprogramming.Enable_if_args B none).isSome = B := by
  cases B <;> rfl

/-- The class template is_any_pointer matches unqualified pointers only, so
it and is_any_pointer_v disagree on a const-qualified pointer such as
int* const; they agree on every type without top-level cv-qualifiers. -/
theorem is_any_pointer_struct_vs_variable :
    TypeTraitsToDetectPointers.is_any_pointer (CType.const_ (CType.ptr CType.int)) = false ∧
    TypeTraitsToDetectPointers.is_any_pointer_v (CType.const_ (CType.ptr CType.int)) = true ∧
    (∀ T : CType, remove_cv T = T →
      TypeTraitsToDetectPointers.is_any_pointer T
        = TypeTraitsToDetectPointers.is_any_pointer_v T) := by
  refine ⟨by decide, by decide, ?_⟩
  intro T h
  rw [TypeTraitsToDetectPointers.is_any_pointer_v, std_is_pointer, h]
  cases T <;> rfl

/-- In the concepts file exactly one of the two check overloads is viable for
every type T: the one printing the pointer message when the concept holds,
the other when it does not, and the call selects the matching message. -/
theorem check_concepts_exactly_one_overload (T : CType) :
    IsPointerConcepts.check_pointer.enabled T = IsPointerConcepts.IsPointer T ∧
    IsPointerConcepts.check_not_pointer.enabled T = !IsPointerConcepts.IsPointer T ∧
    (viable [IsPointerConcepts.check_pointer,
      IsPointerConcepts.check_not_pointer] T).length = 1 ∧
    IsPointerConcepts.check T = Resolution.selected
      (if IsPointerConcepts.IsPointer T then "Iam a pointer" else "Iam not a pointer") ∧
    IsPointerConcepts.check CType.int = Resolution.selected "Iam not a pointer" ∧
    IsPointerConcepts.check (CType.ptr CType.int) = Resolution.selected "Iam a pointer" := by
  have e3 : IsPointerConcepts.check_pointer
      = ⟨IsPointerConcepts.IsPointer, "Iam a pointer"⟩ := rfl
  have e4 : IsPointerConcepts.check_not_pointer
      = ⟨fun U => !IsPointerConcepts.IsPointer U, "Iam not a pointer"⟩ := rfl
  refine ⟨?_, ?_, ?_, ?_, by decide, by decide⟩
  · rw [e3]
  · rw [e4]
  · rw [e3, e4]; exact viable_complementary _ _ _ T
  · rw [IsPointerConcepts.check, e3, e4]; exact resolve_complementary _ _ _ T

/-- Had the alias of the type-traits file the default argument that the alias
of TemplateMetaprogramming.cc (lines 394-395) has, the two declarations of
lines 15-25 would give exactly one viable overload for every type T. -/
theorem check_traits_with_default_void (T : CType) :
    resolve
      [⟨fun U => (TemplateMetaprogramming.Enable_if_args
          (TypeTraitsToDetectPointers.IsPointer U) none).isSome, "I am a pointer"⟩,
       ⟨fun U => (TemplateMetaprogramming.Enable_if_args
          (!TypeTraitsToDetectPointers.IsPointer U) none).isSome, "I am not a  pointer"⟩] T
      = Resolution.selected
        (if TypeTraitsToDetectPointers.IsPointer T then "I am a pointer"
          else "I am not a  pointer") := by
  simp only [Enable_if_default_isSome]
  exact resolve_complementary _ _ _ T

/-- C6: in the type-traits file the use of Enable_if with one argument is
ill-formed for either condition, so for every type T neither check overload
is declared: no overload is viable and the call finds no match; check on an
int argument and check on an int* argument print nothing. -/
theorem check_traits_declares_no_overload (T : CType) :
    (∀ B : Bool, TypeTraitsToDetectPointers.Enable_if_args B none = TypeName.ill_formed) ∧
    TypeTraitsToDetectPointers.check_pointer.enabled T = false ∧
    TypeTraitsToDetectPointers.check_not_pointer.enabled T = false ∧
    (viable [TypeTraitsToDetectPointers.check_pointer,
      TypeTraitsToDetectPointers.check_not_pointer] T).length = 0 ∧
    TypeTraitsToDetectPointers.check T = Resolution.no_match ∧
    TypeTraitsToDetectPointers.check CType.int = Resolution.no_match ∧
    TypeTraitsToDetectPointers.check (CType.ptr CType.int) = Resolution.no_match := by
  have h1 : TypeTraitsToDetectPointers.check_pointer.enabled T = false := rfl
  have h2 : TypeTraitsToDetectPointers.check_not_pointer.enabled T = false := rfl
  have hv : viable [TypeTraitsToDetectPointers.check_pointer,
      TypeTraitsToDetectPointers.check_not_pointer] T = [] := by
    simp [viable, List.filter, h1, h2]
  refine ⟨fun _ => rfl, h1, h2, by rw [hv]; rfl, ?_, by decide, by decide⟩
  rw [TypeTraitsToDetectPointers.check, resolve, hv]

end Cpp

namespace TemplateMetaprogramming

open Cpp

/-! ## `Fac`, `Is_big` and `Obj_holder` -/

/-- The recurrence on the positive template arguments n + 1, as long as the
factorial fits into an `int`. -/
theorem Fac_succ_nat (n : Nat) :
    ∀ depth : Nat, n + 1 ≤ depth → Nat.factorial (n + 1) ≤ 2147483647 →
      Fac depth ((n : Int) + 1) = some ((Nat.factorial (n + 1) : Nat) : Int) := by
  induction n with
  | zero =>
    intro depth hd _
    obtain ⟨d, rfl⟩ : ∃ d, depth = d + 1 := ⟨depth - 1, by omega⟩
    simp [Fac]
  | succ k ih =>
    intro depth hd hfit
    obtain ⟨d, rfl⟩ : ∃ d, depth = d + 1 := ⟨depth - 1, by omega⟩
    have hmono : Nat.factorial (k + 1) ≤ Nat.factorial (k + 1 + 1) :=
      Nat.factorial_le (Nat.le_succ _)
    have hk := ih d (by omega) (le_trans hmono hfit)
    have hne : ¬ (((k + 1 : Nat) : Int) + 1 = 1) := by omega
    have hsub : ((k + 1 : Nat) : Int) + 1 - 1 = (k : Int) + 1 := by
      push_cast; ring
    have hprod : (((k + 1 : Nat) : Int) + 1) * ((Nat.factorial (k + 1) : Nat) : Int)
        = ((Nat.factorial (k + 1 + 1) : Nat) : Int) := by
      rw [Nat.factorial_succ (k + 1)]
      push_cast
      ring
    have hfits : int_fits ((Nat.factorial (k + 1 + 1) : Nat) : Int) = true := by
      have h0 : (0 : Int) ≤ ((Nat.factorial (k + 1 + 1) : Nat) : Int) := Int.natCast_nonneg _
      have h1 : ((Nat.factorial (k + 1 + 1) : Nat) : Int) ≤ 2147483647 := by
        exact_mod_cast hfit
      simp only [int_fits, decide_eq_true_eq]
      constructor
      · linarith
      · exact h1
    rw [Fac, if_neg hne, hsub, hk]
    simp only [hprod, hfits, if_true]

/-- Whenever `Fac<N>::value` has a value, N is at least 1 and the value is N
factorial, a number that fits into an `int`. -/
theorem Fac_some (depth : Nat) :
    ∀ (N v : Int), Fac depth N = some v →
      1 ≤ N ∧ v = ((Nat.factorial N.toNat : Nat) : Int) ∧ v ≤ 2147483647 := by
  induction depth with
  | zero => intro N v h; simp [Fac] at h
  | succ d ih =>
    intro N v h
    rw [Fac] at h
    by_cases h1 : N = 1
    · rw [if_pos h1] at h
      subst h1
      have hv : v = 1 := by simpa using h.symm
      subst hv
      refine ⟨le_refl _, by decide, by decide⟩
    · rw [if_neg h1] at h
      cases hw : Fac d (N - 1) with
      | none => rw [hw] at h; simp at h
      | some w =>
        rw [hw] at h
        simp only at h
        obtain ⟨hN1, hwf, _⟩ := ih (N - 1) w hw
        by_cases hf : int_fits (N * w) = true
        · rw [if_pos hf] at h
          have hv : v = N * w := by simpa using h.symm
          have hfit : N * w ≤ 2147483647 := by
            have := hf
            simp only [int_fits, decide_eq_true_eq] at this
            exact this.2
          obtain ⟨n, rfl⟩ : ∃ n : Nat, N = (n : Int) + 2 := ⟨(N - 2).toNat, by omega⟩
          have t1 : ((n : Int) + 2).toNat = n + 1 + 1 := by omega
          have t2 : ((n : Int) + 2 - 1).toNat = n + 1 := by omega
          rw [t2] at hwf
          refine ⟨by omega, ?_, by rw [hv]; exact hfit⟩
          rw [hv, hwf, t1, Nat.factorial_succ (n + 1)]
          push_cast
          ring
        · rw [if_neg hf] at h; simp at h

/-- From N = 13 on the constant has no value, whatever the depth: 13 factorial
does not fit into an `int`. -/
theorem Fac_no_value_from_13 (N : Int) (depth : Nat) (hN : 13 ≤ N) :
    Fac depth N = none := by
  cases h : Fac depth N with
  | none => rfl
  | some v =>
    exfalso
    obtain ⟨_, hv, hfit⟩ := Fac_some depth N v h
    have hle : Nat.factorial 13 ≤ Nat.factorial N.toNat :=
      Nat.factorial_le (by omega)
    have h13 : Nat.factorial 13 = 6227020800 := by decide
    have : ((Nat.factorial N.toNat : Nat) : Int) ≤ 2147483647 := by rw [← hv]; exact hfit
    have : Nat.factorial N.toNat ≤ 2147483647 := by exact_mod_cast this
    omega

/-- C8, as stated, fails at N = 13: 13 factorial is 6227020800, which is not
representable in an int, and Fac<13>::value has no value although Fac<12>::value
is 12 factorial. -/
theorem Fac_13_has_no_value :
    Nat.factorial 13 = 6227020800 ∧
    int_fits 6227020800 = false ∧
    Fac 12 12 = some 479001600 ∧
    Fac 13 13 = none := by
  refine ⟨by decide, by decide, ?_, ?_⟩
  · exact Fac_succ_nat 11 12 (by decide) (by decide)
  · exact Fac_no_value_from_13 13 13 (by decide)

/-- C8 amended: for every integer N from 1 to 12, the values whose factorial
fits into an int, and every instantiation depth of at least N, the constant
Fac<N>::value is N factorial; x8 = Fac<8>::value is 40320. -/
theorem Fac_value_eq_factorial (N : Int) (depth : Nat) (hN : 1 ≤ N) (h12 : N ≤ 12)
    (hd : N.toNat ≤ depth) :
    Nat.factorial N.toNat ≤ 2147483647 ∧
    Fac depth N = some ((Nat.factorial N.toNat : Nat) : Int) ∧
    Fac 8 8 = some 40320 := by
  obtain ⟨n, rfl⟩ : ∃ n : Nat, N = (n : Int) + 1 := ⟨(N - 1).toNat, by omega⟩
  have ht : ((n : Int) + 1).toNat = n + 1 := by omega
  rw [ht] at hd ⊢
  have hfit : Nat.factorial (n + 1) ≤ 2147483647 := by
    have hle : Nat.factorial (n + 1) ≤ Nat.factorial 12 := Nat.factorial_le (by omega)
    have h12f : Nat.factorial 12 = 479001600 := by decide
    omega
  refine ⟨hfit, Fac_succ_nat n depth hd hfit, ?_⟩
  exact Fac_succ_nat 7 8 (by decide) (by decide)

/-- Witness for C8: the constant x8 = Fac<8>::value of line 318. -/
theorem Fac_value_eq_factorial_witness :
    (1 : Int) ≤ 8 ∧ (8 : Int) ≤ 12 ∧ (8 : Int).toNat ≤ 8 ∧ Fac 8 8 = some 40320 :=
  ⟨by decide, by decide, by decide,
    (Fac_value_eq_factorial 8 8 (by decide) (by decide) (by decide)).2.2⟩

/-- The alias of line 241 on every type and platform: the first alternative,
Scoped, is taken when Is_big holds, the second, On_heap, when it does not. -/
theorem Obj_holder_eq (sizeof : CType → Nat) (T : CType) :
    Obj_holder sizeof T = if 100 < sizeof T then Scoped T else On_heap T := by
  by_cases h : 100 < sizeof T <;> simp [Obj_holder, Conditional, conditional, Is_big, h]

/-- C10: the alias Obj_holder of line 241 maps the small type double (8 chars,
Is_big false) to the free-store holder On_heap<double> and the big type
double[200] (1600 chars, Is_big true) to the in-object holder
Scoped<double[200]>: the opposite of the selection the comment of lines
106-115 describes. -/
theorem Obj_holder_alias_swapped :
    sizeof_lp64 CType.double = 8 ∧
    Is_big sizeof_lp64 CType.double = false ∧
    Obj_holder sizeof_lp64 CType.double = On_heap CType.double ∧
    Obj_holder sizeof_lp64 CType.double ≠ Scoped CType.double ∧
    sizeof_lp64 (CType.array CType.double 200) = 1600 ∧
    Is_big sizeof_lp64 (CType.array CType.double 200) = true ∧
    Obj_holder sizeof_lp64 (CType.array CType.double 200)
      = Scoped (CType.array CType.double 200) := by
  refine ⟨by decide, by decide, by decide, by decide, by decide, by decide, by decide⟩

end TemplateMetaprogramming

namespace TemplateMetaprogramming

open Cpp

/-! ## The struct `Obj_holder`, `Holder` and `Enable_if` -/

/-- C11: for every type T and every platform, Obj_holder<T>::type, and so
Holder<T>, is Scoped<T> when sizeof(T) <= on_stack_max and the heap holder
otherwise, and the two holders are different types; with on_stack_max =
sizeof(std::string) = 32, Holder<double> is the stack holder and
Holder<std::array<double, 200>> is the heap holder. -/
theorem Holder_selects_by_size (sizeof : CType → Nat) (T : CType) :
    Obj_holder.type sizeof T
      = (if sizeof T ≤ on_stack_max sizeof then Scoped T else On_Heap T) ∧
    Holder sizeof T = (if sizeof T ≤ sizeof std_string then Scoped T else On_Heap T) ∧
    Scoped T ≠ On_Heap T ∧
    on_stack_max sizeof_lp64_lib = 32 ∧
    Holder sizeof_lp64_lib CType.double = Scoped CType.double ∧
    Holder sizeof_lp64_lib std_array_double_200 = On_Heap std_array_double_200 := by
  refine ⟨?_, ?_, ?_, by decide, by decide, by decide⟩
  · by_cases h : sizeof T ≤ on_stack_max sizeof <;>
      simp [Obj_holder.type, std_conditional, h]
  · by_cases h : sizeof T ≤ sizeof std_string <;>
      simp [Holder, Obj_holder.type, std_conditional, on_stack_max, h]
  · simp [Scoped, On_Heap, On_heap]

end TemplateMetaprogramming
